import Mathlib

/-!
Verification of the adaptive-Opus controller core
(`dashboard_engine.py`, `opus_wrapper.py`, `quality_analyzer.py`,
`main_script.py`) against its specification.

Shallow embedding choices:
- Python floats carrying loss percentages and scores are modelled as `ℚ`
  (all comparisons in the code are order comparisons on exact values).
- A loaded predictor (`model`) is an optional function from a feature
  vector to `Except Unit ℚ`: `Except.error` models `predict` raising,
  and `none` models the artifact being absent (`model is None`), in which
  case the attribute access `model.predict` raises and is caught by the
  same `except` clause.
- External effects (the opusenc/opusdec pipeline, the PESQ scorer and
  file reads) are oracle parameters; file existence that the claims talk
  about is threaded as explicit state.
-/

/-- An encoding configuration: the dict
`{"bitrate": b, "frame_size": f, "complexity": c, "use_fec": fec}`
built by `generate_all_configs` in `dashboard_engine.py`. -/
structure Config where
  bitrate : ℕ
  frame_size : ℕ
  complexity : ℕ
  use_fec : Bool
deriving DecidableEq, Repr

/-- The four axis lists of the parameter grid (`dashboard_engine.py`,
`generate_all_configs`). -/
def bitrates : List ℕ := [8, 12, 16, 24, 32, 48]

def frame_sizes : List ℕ := [20, 40, 60]

def complexities : List ℕ := [5, 9]

def fec_options : List Bool := [false, true]

/-- Embedding of `generate_all_configs`: four nested `for` loops,
bitrate outermost, then frame size, then complexity, then FEC flag
innermost, appending one dict per combination. -/
def generate_all_configs : List Config :=
  bitrates.flatMap fun b =>
    frame_sizes.flatMap fun f =>
      complexities.flatMap fun c =>
        fec_options.map fun fec =>
          { bitrate := b, frame_size := f, complexity := c, use_fec := fec }

/-- Embedding of `static_controller`: ignores the loss argument and
returns the fixed dict `{"bitrate": 32, "frame_size": 20, "complexity": 5,
"use_fec": False}`. -/
def static_controller (_packet_loss : ℚ) : Config :=
  { bitrate := 32, frame_size := 20, complexity := 5, use_fec := false }

/-- Embedding of `heuristic_controller`: an `if/elif` chain on the loss
selecting the bitrate, with the remaining fields fixed. -/
def heuristic_controller (packet_loss : ℚ) : Config :=
  let bitrate : ℕ :=
    if packet_loss < 2 then 48
    else if packet_loss < 5 then 24
    else if packet_loss < 10 then 16
    else 12
  { bitrate := bitrate, frame_size := 20, complexity := 5, use_fec := false }

/-- A loaded predictor: `model.predict([features])[0]` is modelled as a
function from the feature vector to `Except Unit ℚ`, `Except.error`
standing for `predict` raising on that input. -/
abbrev Predictor := List ℚ → Except Unit ℚ

/-- The feature vector built inside `ml_controller`:
`[cfg["bitrate"], cfg["frame_size"], int(cfg["use_fec"]), packet_loss]`. -/
def features (cfg : Config) (packet_loss : ℚ) : List ℚ :=
  [(cfg.bitrate : ℚ), (cfg.frame_size : ℚ), if cfg.use_fec then 1 else 0,
    packet_loss]

/-- The `try: pred = model.predict([features])[0] except Exception: pred = 0.0`
block of `ml_controller`: when the model is absent (`None` in Python, so the
attribute access raises) or `predict` raises, the sentinel `0.0` is used. -/
def predictOrSentinel (model : Option Predictor) (fs : List ℚ) : ℚ :=
  match model with
  | none => 0
  | some m =>
    match m fs with
    | Except.ok v => v
    | Except.error _ => 0

/-- The `for cfg in candidates:` loop of `ml_controller`, carrying the
running `best` (initially `None`) and `best_score` accumulators and
updating them exactly when `pred > best_score`. -/
def mlLoop (model : Option Predictor) (packet_loss : ℚ) :
    List Config → Option Config → ℚ → Option Config
  | [], best, _best_score => best
  | cfg :: rest, best, best_score =>
    let pred := predictOrSentinel model (features cfg packet_loss)
    if pred > best_score then mlLoop model packet_loss rest (some cfg) pred
    else mlLoop model packet_loss rest best best_score

/-- Embedding of `ml_controller`: scans the 72-entry grid with
`best = None`, `best_score = -1e9`, returning the accumulated `best`
(which is still `None` when no prediction ever exceeds `-1e9`). -/
def ml_controller (packet_loss : ℚ) (model : Option Predictor) :
    Option Config :=
  mlLoop model packet_loss generate_all_configs none (-1000000000)

/-- Embedding of `hybrid_controller`: delegates to `ml_controller` when
`packet_loss < 5.0`, else to `static_controller`. -/
def hybrid_controller (packet_loss : ℚ) (model : Option Predictor) :
    Option Config :=
  if packet_loss < 5 then ml_controller packet_loss model
  else some (static_controller packet_loss)

/-- The effective score `ml_controller` assigns to a candidate at a given
loss: the prediction, or the sentinel `0.0` when `predict` raises. -/
def mlScore (model : Option Predictor) (packet_loss : ℚ) (cfg : Config) : ℚ :=
  predictOrSentinel model (features cfg packet_loss)

/-- The slice of the filesystem `process_audio_file` touches: whether the
intermediate `.opus` file and the final decoded `.wav` file exist. -/
structure FS where
  opus : Bool
  wav : Bool
deriving DecidableEq, Repr

/-- Behaviour of the external `opusenc`/`opusdec` processes for one call of
`process_audio_file`: whether each `subprocess.run(..., check=True)` exits
zero, and whether a failing process leaves a (partial) output file behind. -/
structure ExtCodec where
  encode_ok : Bool
  encode_leftover : Bool
  decode_ok : Bool
  decode_leftover : Bool

/-- Embedding of `process_audio_file` (`opus_wrapper.py`): encode to the
intermediate `.opus`; on `CalledProcessError` return `None` (no cleanup
statement on this path); decode to the final `.wav`; on `CalledProcessError`
unlink the intermediate file and return `None`; on success unlink the
intermediate file and return the final path. The returned `Option Unit`
stands for the `final_wav_file` path or `None`; the `FS` component is the
filesystem state at return. -/
def process_audio_file (codec : ExtCodec) (fs : FS) : Option Unit × FS :=
  if codec.encode_ok then
    let fs1 : FS := { fs with opus := true }
    if codec.decode_ok then
      let fs2 : FS := { fs1 with wav := true }
      (some (), { fs2 with opus := false })
    else
      let fs2 : FS := { fs1 with wav := codec.decode_leftover }
      (none, { fs2 with opus := false })
  else
    (none, { fs with opus := codec.encode_leftover })

/-- Oracle inputs of one `get_audio_quality` call (`quality_analyzer.py`):
the outcome of `sf.read` on the reference and degraded files (sample rate
on success, `Except.error` when the read raises), and the outcome of the
`pesq(...)` call on the already-aligned pair (`Except.error` when the PESQ
library raises). Channel extraction and length truncation act only on the
sample data, which is abstracted into the `pesq` oracle. -/
structure QualityEnv where
  read_ref : Except Unit ℕ
  read_deg : Except Unit ℕ
  pesq_result : Except Unit ℚ

/-- Embedding of `get_audio_quality`: reading either file raising gives
`None`; either sample rate differing from `16000` gives `None`; the `pesq`
call raising gives the floor score `1.0`; otherwise the PESQ score. -/
def get_audio_quality (env : QualityEnv) : Option ℚ :=
  match env.read_ref with
  | Except.error _ => none
  | Except.ok ref_fs =>
    match env.read_deg with
    | Except.error _ => none
    | Except.ok deg_fs =>
      if ref_fs ≠ 16000 ∨ deg_fs ≠ 16000 then none
      else
        match env.pesq_result with
        | Except.ok score => some score
        | Except.error _ => some 1

/-- One job's parameter dict in the sweep (`main_script.py`): the grid
coordinates plus the loss percentage (the source file path is abstract). -/
structure JobParams where
  bitrate : ℕ
  frame_size : ℕ
  complexity : ℕ
  use_fec : Bool
  packet_loss_perc : ℚ
deriving DecidableEq, Repr

/-- One row of the collected dataset (`result_data` in
`run_single_combination`). -/
structure RowResult where
  bitrate : ℕ
  frame_size : ℕ
  complexity : ℕ
  use_fec : Bool
  packet_loss_perc : ℚ
  pesq_mos_score : ℚ
deriving DecidableEq, Repr

/-- Oracle inputs of one `run_single_combination` call: the outcome of
`process_audio_file` (`some` a processed-file handle or `None`), the
oracle inputs of the inner `get_audio_quality` call, and whether any other
statement in the worker body raises (caught by the enclosing
`except Exception: return None`). -/
structure WorkerEnv where
  pipeline_result : Option ℕ
  quality : QualityEnv
  crashes : Bool

/-- Embedding of `run_single_combination` (`main_script.py`): any exception
in the body yields `None`; `process_audio_file` returning `None` yields
`None`; `if not score:` drops both `None` and a `0.0` score (Python
truthiness); otherwise the result row is built from the job parameters and
the score. -/
def run_single_combination (env : WorkerEnv) (params : JobParams) :
    Option RowResult :=
  if env.crashes then none
  else
    match env.pipeline_result with
    | none => none
    | some _ =>
      match get_audio_quality env.quality with
      | none => none
      | some score =>
        if score = 0 then none
        else
          some { bitrate := params.bitrate, frame_size := params.frame_size,
                 complexity := params.complexity, use_fec := params.use_fec,
                 packet_loss_perc := params.packet_loss_perc,
                 pesq_mos_score := score }

/-- The collecting loop of `run_experiment_parallel`:
`for result in jobs: if result is not None: results_list.append(result)`,
over the completion-ordered stream of worker return values. -/
def collect_results : List (Option RowResult) → List RowResult
  | [] => []
  | none :: rest => collect_results rest
  | some r :: rest => r :: collect_results rest

/-- Error outcomes of `run_audio_simulation` past the input-file
preparation: the `raise ValueError("Unknown controller type")` in the
dispatch chain, and the `TypeError` raised by `cfg['bitrate']` when the
selected controller returned `None`. -/
inductive SimError where
  | unknownController
  | noConfig
deriving DecidableEq, Repr

/-- External collaborators of one `run_audio_simulation` call: the codec
pipeline (`process_audio_file`, keyed by the chosen config and the loss
value passed to it, returning a processed-file handle or `None`) and the
quality scorer (`get_audio_quality` on the temp input and that handle). -/
structure SimOracle where
  pipeline : Config → ℚ → Option ℕ
  score : ℕ → Option ℚ

/-- The metrics dict returned by `run_audio_simulation` (the
`processing_time_s` entry, wall-clock time, is outside the embedding). -/
structure Metrics where
  mos : Option ℚ
  config : Config
  processed_file : ℕ
deriving DecidableEq, Repr

/-- The controller-selection `if/elif` chain of `run_audio_simulation`,
returning the chosen config (`none` inside `Except.ok` when the selected
controller itself returned `None`). -/
def dispatch (controller_type : String) (packet_loss_perc : ℚ)
    (model : Option Predictor) : Except SimError (Option Config) :=
  if controller_type = "static" then
    Except.ok (some (static_controller packet_loss_perc))
  else if controller_type = "heuristic" then
    Except.ok (some (heuristic_controller packet_loss_perc))
  else if controller_type = "ml_adaptive" then
    Except.ok (ml_controller packet_loss_perc model)
  else if controller_type = "hybrid" then
    Except.ok (hybrid_controller packet_loss_perc model)
  else Except.error SimError.unknownController

/-- Embedding of `run_audio_simulation` (`dashboard_engine.py`) from the
controller dispatch onward (the preceding read/resample/write of the input
file is assumed to have succeeded; the temp-input cleanup is not modelled).
The second component records every invocation of the codec pipeline with
the exact config and loss arguments passed to it. A `None` config makes
the argument evaluation `cfg['bitrate']` raise before any pipeline call;
a pipeline failure returns `None`; a scoring failure is stored as
`mos = None` in the returned metrics dict. -/
def run_audio_simulation (oracle : SimOracle) (packet_loss_perc : ℚ)
    (controller_type : String) (model : Option Predictor) :
    Except SimError (Option Metrics) × List (Config × ℚ) :=
  match dispatch controller_type packet_loss_perc model with
  | Except.error e => (Except.error e, [])
  | Except.ok none => (Except.error SimError.noConfig, [])
  | Except.ok (some cfg) =>
    match oracle.pipeline cfg packet_loss_perc with
    | none => (Except.ok none, [(cfg, packet_loss_perc)])
    | some f =>
      let mos := oracle.score f
      (Except.ok (some { mos := mos, config := cfg, processed_file := f }),
        [(cfg, packet_loss_perc)])

/-- Controller keyword for the static policy (avoids repeating the string
literal at use sites). -/
def ctrl_static : String := "static"

/-- Controller keyword for an unknown policy, used to exercise the
dispatch error path. -/
def ctrl_bogus : String := "bogus"

/-- A predictor that succeeds on every input with the constant score
`-2e9`, strictly below `ml_controller`'s initial `best_score` of `-1e9`. -/
def lowPredictor : Predictor := fun _ => Except.ok (-2000000000)

/-- A simulation oracle whose pipeline and scorer always fail, used to
observe the arguments `run_audio_simulation` passes to the pipeline. -/
def failOracle : SimOracle :=
  { pipeline := fun _ _ => none, score := fun _ => none }

/-- A codec behaviour where `opusenc` fails and leaves a partial
intermediate `.opus` file behind. -/
def encodeFailCodec : ExtCodec :=
  { encode_ok := false, encode_leftover := true,
    decode_ok := true, decode_leftover := false }

/-- A codec behaviour where `opusenc` succeeds and `opusdec` fails without
leaving a partial final file. -/
def decodeFailCodec : ExtCodec :=
  { encode_ok := true, encode_leftover := false,
    decode_ok := false, decode_leftover := false }

/-- A fresh filesystem slice: neither artifact exists yet. -/
def emptyFS : FS := { opus := false, wav := false }

/-- A quality environment where both reads succeed at 16 kHz and the PESQ
computation itself raises. -/
def pesqRaisesEnv : QualityEnv :=
  { read_ref := Except.ok 16000, read_deg := Except.ok 16000,
    pesq_result := Except.error () }

/-- A worker environment whose pipeline succeeded and whose scorer hits
the PESQ floor path. -/
def floorWorkerEnv : WorkerEnv :=
  { pipeline_result := some 0, quality := pesqRaisesEnv, crashes := false }

/-- A worker environment in which some statement of the worker body raises
(contained by the worker's blanket `except`). -/
def crashWorkerEnv : WorkerEnv :=
  { pipeline_result := some 0, quality := pesqRaisesEnv, crashes := true }

/-- Concrete job parameters used to instantiate worker theorems. -/
def sampleParams : JobParams :=
  { bitrate := 24, frame_size := 20, complexity := 5, use_fec := false,
    packet_loss_perc := 5 }

/-- A concrete dataset row used to instantiate the collection theorems. -/
def sampleRow : RowResult :=
  { bitrate := 24, frame_size := 20, complexity := 5, use_fec := false,
    packet_loss_perc := 5, pesq_mos_score := 3 }

theorem mlLoop_const_of_all_le (model : Option Predictor) (packet_loss : ℚ) :
    ∀ (l : List Config) (best : Option Config) (s : ℚ),
      (∀ c ∈ l, mlScore model packet_loss c ≤ s) →
      mlLoop model packet_loss l best s = best := by
  intro l
  induction l with
  | nil => intro best s _; rfl
  | cons a t ih =>
    intro best s h
    have ha : mlScore model packet_loss a ≤ s := h a (List.mem_cons_self a t)
    have hnot : ¬ predictOrSentinel model (features a packet_loss) > s :=
      not_lt.mpr ha
    simp only [mlLoop, if_neg hnot]
    exact ih best s fun c hc => h c (List.mem_cons_of_mem a hc)

theorem mlLoop_argmax (model : Option Predictor) (packet_loss : ℚ) :
    ∀ (l : List Config) (best : Option Config) (s : ℚ),
      (∃ c ∈ l, s < mlScore model packet_loss c) →
      ∃ c₀ l₁ l₂,
        mlLoop model packet_loss l best s = some c₀ ∧
        l = l₁ ++ c₀ :: l₂ ∧
        s < mlScore model packet_loss c₀ ∧
        (∀ d ∈ l, mlScore model packet_loss d ≤ mlScore model packet_loss c₀) ∧
        (∀ d ∈ l₁, mlScore model packet_loss d < mlScore model packet_loss c₀) := by
  intro l
  induction l with
  | nil => intro best s h; simp at h
  | cons a t ih =>
    intro best s h
    by_cases hsa : s < mlScore model packet_loss a
    · have hstep : mlLoop model packet_loss (a :: t) best s =
          mlLoop model packet_loss t (some a) (mlScore model packet_loss a) := by
        simp only [mlLoop, if_pos (show predictOrSentinel model
          (features a packet_loss) > s from hsa)]
        rfl
      by_cases hex : ∃ c ∈ t, mlScore model packet_loss a < mlScore model packet_loss c
      · obtain ⟨c₀, l₁, l₂, hres, hsplit, hgt, hmax, hfirst⟩ :=
          ih (some a) (mlScore model packet_loss a) hex
        refine ⟨c₀, a :: l₁, l₂, ?_, ?_, ?_, ?_, ?_⟩
        · rw [hstep]; exact hres
        · rw [hsplit]; rfl
        · exact lt_trans hsa hgt
        · intro d hd
          rcases List.mem_cons.mp hd with hda | hdt
          · rw [hda]; exact le_of_lt hgt
          · exact hmax d hdt
        · intro d hd
          rcases List.mem_cons.mp hd with hda | hdl
          · rw [hda]; exact hgt
          · exact hfirst d hdl
      · push_neg at hex
        have hall : ∀ c ∈ t, mlScore model packet_loss c ≤ mlScore model packet_loss a :=
          hex
        refine ⟨a, [], t, ?_, rfl, hsa, ?_, ?_⟩
        · rw [hstep]
          exact mlLoop_const_of_all_le model packet_loss t (some a)
            (mlScore model packet_loss a) hall
        · intro d hd
          rcases List.mem_cons.mp hd with hda | hdt
          · rw [hda]
          · exact hall d hdt
        · intro d hd; simp at hd
    · have hstep : mlLoop model packet_loss (a :: t) best s =
          mlLoop model packet_loss t best s := by
        simp only [mlLoop, if_neg (show ¬ predictOrSentinel model
          (features a packet_loss) > s from hsa)]
      obtain ⟨c, hc, hsc⟩ := h
      have hct : c ∈ t := by
        rcases List.mem_cons.mp hc with hca | hct
        · exfalso; rw [hca] at hsc; exact hsa hsc
        · exact hct
      obtain ⟨c₀, l₁, l₂, hres, hsplit, hgt, hmax, hfirst⟩ :=
        ih best s ⟨c, hct, hsc⟩
      refine ⟨c₀, a :: l₁, l₂, ?_, ?_, hgt, ?_, ?_⟩
      · rw [hstep]; exact hres
      · rw [hsplit]; rfl
      · intro d hd
        rcases List.mem_cons.mp hd with hda | hdt
        · rw [hda]
          exact le_of_lt (lt_of_le_of_lt (not_lt.mp hsa) hgt)
        · exact hmax d hdt
      · intro d hd
        rcases List.mem_cons.mp hd with hda | hdl
        · rw [hda]
          exact lt_of_le_of_lt (not_lt.mp hsa) hgt
        · exact hfirst d hdl

theorem heuristic_bitrate (loss : ℚ) :
    (heuristic_controller loss).bitrate =
      if loss < 2 then 48 else if loss < 5 then 24
      else if loss < 10 then 16 else 12 := rfl

/-- Claim C2: `heuristic_controller` fixes frame size 20, complexity 5 and
no FEC, and tiers the bitrate by loss with each band closed on its lower
end: loss < 2 gives 48, 2 ≤ loss < 5 gives 24, 5 ≤ loss < 10 gives 16,
and 10 ≤ loss gives 12. -/
theorem heuristic_controller_tiers (loss : ℚ) :
    (heuristic_controller loss).frame_size = 20 ∧
    (heuristic_controller loss).complexity = 5 ∧
    (heuristic_controller loss).use_fec = false ∧
    (loss < 2 → (heuristic_controller loss).bitrate = 48) ∧
    (2 ≤ loss → loss < 5 → (heuristic_controller loss).bitrate = 24) ∧
    (5 ≤ loss → loss < 10 → (heuristic_controller loss).bitrate = 16) ∧
    (10 ≤ loss → (heuristic_controller loss).bitrate = 12) := by
  refine ⟨rfl, rfl, rfl, ?_, ?_, ?_, ?_⟩
  · intro h
    rw [heuristic_bitrate, if_pos h]
  · intro h1 h2
    rw [heuristic_bitrate, if_neg (not_lt.mpr h1), if_pos h2]
  · intro h1 h2
    have a1 : ¬ loss < 2 := not_lt.mpr (le_trans (by norm_num) h1)
    rw [heuristic_bitrate, if_neg a1, if_neg (not_lt.mpr h1), if_pos h2]
  · intro h
    have a1 : ¬ loss < 2 := not_lt.mpr (le_trans (by norm_num) h)
    have a2 : ¬ loss < 5 := not_lt.mpr (le_trans (by norm_num) h)
    rw [heuristic_bitrate, if_neg a1, if_neg a2, if_neg (not_lt.mpr h)]

/-- Witness for C2: the boundary inputs 2, 5 and 10 land in the lower
band as claimed, with the fixed fields unchanged. -/
theorem heuristic_controller_tiers_witness :
    (heuristic_controller 2).bitrate = 24 ∧
    (heuristic_controller 5).bitrate = 16 ∧
    (heuristic_controller 10).bitrate = 12 ∧
    (heuristic_controller 2).use_fec = false :=
  ⟨(heuristic_controller_tiers 2).2.2.2.2.1 (by norm_num) (by norm_num),
   (heuristic_controller_tiers 5).2.2.2.2.2.1 (by norm_num) (by norm_num),
   (heuristic_controller_tiers 10).2.2.2.2.2.2 (by norm_num),
   (heuristic_controller_tiers 2).2.2.1⟩

/-- Claim C3: `hybrid_controller` delegates to `ml_controller` exactly
when the loss is strictly below 5.0 and to `static_controller` otherwise
(so 5.0 itself goes to the static policy), and `static_controller` ignores
the loss, always returning bitrate 32, frame size 20, complexity 5, no
FEC. -/
theorem hybrid_controller_dispatch (loss : ℚ) (model : Option Predictor) :
    (loss < 5 → hybrid_controller loss model = ml_controller loss model) ∧
    (5 ≤ loss → hybrid_controller loss model = some (static_controller loss)) ∧
    static_controller loss =
      { bitrate := 32, frame_size := 20, complexity := 5, use_fec := false } := by
  refine ⟨?_, ?_, rfl⟩
  · intro h
    simp only [hybrid_controller, if_pos h]
  · intro h
    simp only [hybrid_controller, if_neg (not_lt.mpr h)]

/-- Witness for C3: at loss exactly 5 the hybrid policy returns the static
baseline configuration. -/
theorem hybrid_controller_dispatch_witness :
    hybrid_controller 5 none = some (static_controller 5) ∧
    static_controller 5 =
      { bitrate := 32, frame_size := 20, complexity := 5, use_fec := false } :=
  ⟨(hybrid_controller_dispatch 5 none).2.1 (by norm_num),
   (hybrid_controller_dispatch 5 none).2.2⟩

/-- Claim C4: `generate_all_configs` returns exactly 72 distinct
configurations, covering every combination of the four axis lists exactly
once, and in the fixed order with bitrate varying outermost, then frame
size, then complexity, then the FEC flag innermost (the index formula in
the last conjunct pins the order down completely; the function is pure, so
the list is identical across calls). -/
theorem generate_all_configs_grid :
    generate_all_configs.length = 72 ∧
    generate_all_configs.Nodup ∧
    (∀ b ∈ bitrates, ∀ f ∈ frame_sizes, ∀ c ∈ complexities, ∀ fec ∈ fec_options,
      ({ bitrate := b, frame_size := f, complexity := c, use_fec := fec } : Config) ∈
        generate_all_configs) ∧
    (∀ cfg ∈ generate_all_configs,
      cfg.bitrate ∈ bitrates ∧ cfg.frame_size ∈ frame_sizes ∧
      cfg.complexity ∈ complexities ∧ cfg.use_fec ∈ fec_options) ∧
    (∀ i : Fin 72,
      generate_all_configs.get? i.val =
        some { bitrate := bitrates.getD (i.val / 12) 0,
               frame_size := frame_sizes.getD (i.val / 4 % 3) 0,
               complexity := complexities.getD (i.val / 2 % 2) 0,
               use_fec := fec_options.getD (i.val % 2) false }) := by
  refine ⟨by decide, by decide, by decide, by decide, by decide⟩

/-- Witness for C4: the last grid combination is present, and entry 13 is
the one the claimed nesting order predicts. -/
theorem generate_all_configs_grid_witness :
    ({ bitrate := 48, frame_size := 60, complexity := 9, use_fec := true } : Config) ∈
      generate_all_configs ∧
    generate_all_configs.get? 13 =
      some { bitrate := 12, frame_size := 20, complexity := 5, use_fec := true } := by
  constructor
  · exact generate_all_configs_grid.2.2.1 48 (by decide) 60 (by decide) 9
      (by decide) true (by decide)
  · exact generate_all_configs_grid.2.2.2.2 ⟨13, by norm_num⟩

/-- Claim C1 (amended): `ml_controller` scores all 72 grid configurations
with the feature vector [bitrate, frame_size, use_fec as 0/1, loss], a
raising candidate getting the sentinel score 0.0 and staying in the
argmax, and — provided at least one candidate's effective score exceeds
the initial running best of -1e9 — returns the earliest grid entry
attaining the maximal effective score (first-seen tie-breaking). When
every effective score is at most -1e9, the loop never updates `best` and
`None` is returned instead (see the counterexample). -/
theorem ml_controller_argmax_first (loss : ℚ) (model : Option Predictor)
    (h : ∃ c ∈ generate_all_configs, (-1000000000 : ℚ) < mlScore model loss c) :
    ∃ c₀ l₁ l₂,
      ml_controller loss model = some c₀ ∧
      generate_all_configs = l₁ ++ c₀ :: l₂ ∧
      (∀ d ∈ generate_all_configs, mlScore model loss d ≤ mlScore model loss c₀) ∧
      (∀ d ∈ l₁, mlScore model loss d < mlScore model loss c₀) := by
  obtain ⟨c₀, l₁, l₂, h1, h2, _h3, h4, h5⟩ :=
    mlLoop_argmax model loss generate_all_configs none (-1000000000) h
  exact ⟨c₀, l₁, l₂, h1, h2, h4, h5⟩

/-- Witness for C1: with no model loaded every effective score is the
sentinel 0.0 (above -1e9), so some earliest maximal-score grid entry is
returned. -/
theorem ml_controller_argmax_first_witness :
    ∃ c₀ l₁ l₂,
      ml_controller 0 none = some c₀ ∧
      generate_all_configs = l₁ ++ c₀ :: l₂ ∧
      (∀ d ∈ generate_all_configs, mlScore none 0 d ≤ mlScore none 0 c₀) ∧
      (∀ d ∈ l₁, mlScore none 0 d < mlScore none 0 c₀) :=
  ml_controller_argmax_first 0 none (by decide)

/-- Counterexample to C1 as stated: a predictor that succeeds on every
candidate with the constant score -2e9 (strictly below the initial
best_score of -1e9) makes the loop never update `best`, so `ml_controller`
returns `None` rather than the (well-defined) maximal-score grid entry. -/
theorem ml_controller_all_low_scores_returns_none :
    ml_controller 0 (some lowPredictor) = none := by decide

theorem mlLoop_head_of_all_zero (model : Option Predictor) (loss : ℚ)
    (first : Config) (t : List Config)
    (h0 : mlScore model loss first = 0)
    (ht : ∀ c ∈ t, mlScore model loss c = 0) :
    mlLoop model loss (first :: t) none (-1000000000) = some first := by
  have hpred : predictOrSentinel model (features first loss) > (-1000000000 : ℚ) := by
    show mlScore model loss first > _
    rw [h0]
    norm_num
  simp only [mlLoop, if_pos hpred]
  apply mlLoop_const_of_all_le
  intro c hc
  rw [ht c hc]
  show (0 : ℚ) ≤ mlScore model loss first
  rw [h0]

/-- Claim C10: when the predictor is unusable — the model artifact is
absent (`model is None`) or `predict` raises on every candidate —
`ml_controller` does not raise: every candidate receives the sentinel
score 0.0 and the first grid entry (bitrate 8, frame size 20, complexity
5, no FEC) is returned, and `hybrid_controller` returns the same for loss
below 5.0. -/
theorem ml_controller_fallback_first_config (loss : ℚ) (model : Option Predictor)
    (h : model = none ∨ ∃ p, model = some p ∧
        ∀ c ∈ generate_all_configs, p (features c loss) = Except.error ()) :
    (∀ c ∈ generate_all_configs, mlScore model loss c = 0) ∧
    ml_controller loss model =
      some { bitrate := 8, frame_size := 20, complexity := 5, use_fec := false } ∧
    (loss < 5 → hybrid_controller loss model =
      some { bitrate := 8, frame_size := 20, complexity := 5, use_fec := false }) := by
  have hzero : ∀ c ∈ generate_all_configs, mlScore model loss c = 0 := by
    intro c hc
    rcases h with hm | ⟨p, hp, hraise⟩
    · rw [hm]; rfl
    · rw [hp]
      simp only [mlScore, predictOrSentinel]
      rw [hraise c hc]
  have hdecomp : generate_all_configs =
      ({ bitrate := 8, frame_size := 20, complexity := 5, use_fec := false } : Config)
        :: generate_all_configs.tail := by decide
  have hml : ml_controller loss model =
      some { bitrate := 8, frame_size := 20, complexity := 5, use_fec := false } := by
    have hstep : ml_controller loss model =
        mlLoop model loss
          (({ bitrate := 8, frame_size := 20, complexity := 5, use_fec := false } : Config)
            :: generate_all_configs.tail) none (-1000000000) :=
      congrArg (fun l => mlLoop model loss l none (-1000000000)) hdecomp
    rw [hstep]
    apply mlLoop_head_of_all_zero
    · exact hzero _ (by decide)
    · intro c hc
      exact hzero c ((List.tail_sublist generate_all_configs).subset hc)
  refine ⟨hzero, hml, ?_⟩
  intro h5
  simp only [hybrid_controller, if_pos h5]
  exact hml

/-- Witness for C10: with no model loaded at loss 2, both the learned and
the hybrid policy fall back to the first grid entry. -/
theorem ml_controller_fallback_first_config_witness :
    ml_controller 2 none =
      some { bitrate := 8, frame_size := 20, complexity := 5, use_fec := false } ∧
    hybrid_controller 2 none =
      some { bitrate := 8, frame_size := 20, complexity := 5, use_fec := false } :=
  ⟨(ml_controller_fallback_first_config 2 none (Or.inl rfl)).2.1,
   (ml_controller_fallback_first_config 2 none (Or.inl rfl)).2.2 (by norm_num)⟩

/-- Claim C7 (amended): `process_audio_file` removes the intermediate
`.opus` artifact before returning on the successful path and on the
decode-failure path; on the encode-failure path it returns without any
removal, so whatever (partial) intermediate file the failed encoder left
behind remains (see the counterexample). -/
theorem process_audio_file_cleanup_paths (codec : ExtCodec) (fs : FS) :
    (codec.encode_ok = true → ((process_audio_file codec fs).2).opus = false) ∧
    (codec.encode_ok = false →
      ((process_audio_file codec fs).2).opus = codec.encode_leftover) := by
  constructor
  · intro h
    by_cases hd : codec.decode_ok
    · simp [process_audio_file, h, hd]
    · simp [process_audio_file, h, hd]
  · intro h
    simp [process_audio_file, h]

/-- Witness for C7: when the encode succeeds and the decode fails, the
intermediate file is gone after the call. -/
theorem process_audio_file_cleanup_paths_witness :
    ((process_audio_file decodeFailCodec emptyFS).2).opus = false :=
  (process_audio_file_cleanup_paths decodeFailCodec emptyFS).1 rfl

/-- Counterexample to C7 as stated: when the encoder fails with a partial
intermediate file left on disk, `process_audio_file` returns `None`
without removing it, so an intermediate `.opus` artifact remains after
the call. -/
theorem process_audio_file_encode_failure_leaves_opus :
    (process_audio_file encodeFailCodec emptyFS).1 = none ∧
    ((process_audio_file encodeFailCodec emptyFS).2).opus = true := by
  exact ⟨rfl, rfl⟩

/-- Claim C6: when both audio files are read at 16 kHz and the PESQ
computation itself raises, `get_audio_quality` returns the floor score
1.0 (not an error) and the sweep worker keeps it as a valid sample row;
when either read raises or either sample rate differs from 16000 Hz,
`get_audio_quality` returns `None` and the worker drops the job,
contributing no row. -/
theorem get_audio_quality_floor_and_drop (env : WorkerEnv) (params : JobParams) :
    (env.quality.read_ref = Except.ok 16000 →
      env.quality.read_deg = Except.ok 16000 →
      env.quality.pesq_result = Except.error () →
      get_audio_quality env.quality = some 1 ∧
      (env.crashes = false → ∀ f, env.pipeline_result = some f →
        run_single_combination env params =
          some { bitrate := params.bitrate, frame_size := params.frame_size,
                 complexity := params.complexity, use_fec := params.use_fec,
                 packet_loss_perc := params.packet_loss_perc,
                 pesq_mos_score := 1 })) ∧
    ((env.quality.read_ref = Except.error () ∨
      env.quality.read_deg = Except.error () ∨
      (∃ r, env.quality.read_ref = Except.ok r ∧ r ≠ 16000) ∨
      (∃ d, env.quality.read_deg = Except.ok d ∧ d ≠ 16000)) →
      get_audio_quality env.quality = none ∧
      run_single_combination env params = none) := by
  constructor
  · intro h1 h2 h3
    have hq : get_audio_quality env.quality = some 1 := by
      simp [get_audio_quality, h1, h2, h3]
    refine ⟨hq, ?_⟩
    intro hc f hf
    simp [run_single_combination, hc, hf, hq]
  · intro h
    have hq : get_audio_quality env.quality = none := by
      rcases h with h | h | ⟨r, hr, hne⟩ | ⟨d, hd, hne⟩
      · simp [get_audio_quality, h]
      · cases hr : env.quality.read_ref with
        | error e => simp [get_audio_quality, hr]
        | ok r => simp [get_audio_quality, hr, h]
      · cases hdd : env.quality.read_deg with
        | error e => simp [get_audio_quality, hr, hne, hdd]
        | ok d => simp [get_audio_quality, hr, hne, hdd]
      · cases hr : env.quality.read_ref with
        | error e => simp [get_audio_quality, hr]
        | ok r => simp [get_audio_quality, hr, hd, hne]
    refine ⟨hq, ?_⟩
    cases hc : env.crashes with
    | true => simp [run_single_combination, hc]
    | false =>
      cases hp : env.pipeline_result with
      | none => simp [run_single_combination, hc, hp]
      | some f => simp [run_single_combination, hc, hp, hq]

/-- Witness for C6: a 16 kHz pair on which PESQ raises yields the floor
score 1.0 and the worker returns a row carrying it. -/
theorem get_audio_quality_floor_and_drop_witness :
    get_audio_quality pesqRaisesEnv = some 1 ∧
    run_single_combination floorWorkerEnv sampleParams =
      some { bitrate := 24, frame_size := 20, complexity := 5, use_fec := false,
             packet_loss_perc := 5, pesq_mos_score := 1 } := by
  have h := (get_audio_quality_floor_and_drop floorWorkerEnv sampleParams).1 rfl rfl rfl
  exact ⟨h.1, h.2 rfl 0 rfl⟩

theorem collect_results_append (rs₁ rs₂ : List (Option RowResult)) :
    collect_results (rs₁ ++ rs₂) = collect_results rs₁ ++ collect_results rs₂ := by
  induction rs₁ with
  | nil => rfl
  | cons a t ih => cases a <;> simp [collect_results, ih]

/-- Claim C8: a job whose audio processing or scoring fails (or whose
worker body raises at all) makes `run_single_combination` return `None`;
the collecting loop skips `None` results, so a failing job is excluded
from the collected list while every surrounding succeeding job's row is
collected unaffected, and no failure aborts the processing of the
remaining stream. -/
theorem worker_failure_isolation (env : WorkerEnv) (params : JobParams)
    (rs₁ rs₂ : List (Option RowResult)) (r : RowResult) :
    ((env.crashes = true ∨ env.pipeline_result = none ∨
      get_audio_quality env.quality = none) →
      run_single_combination env params = none) ∧
    collect_results (rs₁ ++ none :: rs₂) =
      collect_results rs₁ ++ collect_results rs₂ ∧
    collect_results (rs₁ ++ some r :: rs₂) =
      collect_results rs₁ ++ r :: collect_results rs₂ := by
  refine ⟨?_, ?_, ?_⟩
  · intro h
    rcases h with h | h | h
    · simp [run_single_combination, h]
    · cases hc : env.crashes with
      | true => simp [run_single_combination, hc]
      | false => simp [run_single_combination, hc, h]
    · cases hc : env.crashes with
      | true => simp [run_single_combination, hc]
      | false =>
        cases hp : env.pipeline_result with
        | none => simp [run_single_combination, hc, hp]
        | some f => simp [run_single_combination, hc, hp, h]
  · rw [collect_results_append]
    rfl
  · rw [collect_results_append]
    rfl

/-- Witness for C8: a crashing worker contributes `None`, which the
collecting loop drops, while a succeeding sibling row is kept. -/
theorem worker_failure_isolation_witness :
    run_single_combination crashWorkerEnv sampleParams = none ∧
    collect_results [none] = [] ∧
    collect_results [some sampleRow] = [sampleRow] := by
  have h := worker_failure_isolation crashWorkerEnv sampleParams [] [] sampleRow
  exact ⟨h.1 (Or.inl rfl), h.2.1, h.2.2⟩

/-- Claim C9: `run_audio_simulation` raises the dispatch-boundary error
(the `ValueError` for an unknown controller type) exactly when the
controller type is none of the four known keywords, in which case the
codec pipeline is never invoked; for a known controller that produced a
configuration, a pipeline failure is returned as `None` (no exception),
and a pipeline success followed by a scoring failure is returned as a
metrics dict whose `mos` field is `None`. -/
theorem run_audio_simulation_dispatch_errors (oracle : SimOracle) (loss : ℚ)
    (controller_type : String) (model : Option Predictor) :
    ((run_audio_simulation oracle loss controller_type model).1 =
        Except.error SimError.unknownController ↔
      ¬ (controller_type = "static" ∨ controller_type = "heuristic" ∨
         controller_type = "ml_adaptive" ∨ controller_type = "hybrid")) ∧
    (¬ (controller_type = "static" ∨ controller_type = "heuristic" ∨
        controller_type = "ml_adaptive" ∨ controller_type = "hybrid") →
      (run_audio_simulation oracle loss controller_type model).2 = []) ∧
    (∀ cfg, dispatch controller_type loss model = Except.ok (some cfg) →
      (oracle.pipeline cfg loss = none →
        (run_audio_simulation oracle loss controller_type model).1 =
          Except.ok none) ∧
      (∀ f, oracle.pipeline cfg loss = some f → oracle.score f = none →
        (run_audio_simulation oracle loss controller_type model).1 =
          Except.ok (some { mos := none, config := cfg, processed_file := f }))) := by
  refine ⟨⟨?_, ?_⟩, ?_, ?_⟩
  · intro h hk
    rcases hk with h1 | h2 | h3 | h4
    · have hd : dispatch controller_type loss model =
          Except.ok (some (static_controller loss)) := by
        simp [dispatch, h1]
      cases hp : oracle.pipeline (static_controller loss) loss with
      | none => simp [run_audio_simulation, hd, hp] at h
      | some f => simp [run_audio_simulation, hd, hp] at h
    · have hd : dispatch controller_type loss model =
          Except.ok (some (heuristic_controller loss)) := by
        simp [dispatch, h2]
      cases hp : oracle.pipeline (heuristic_controller loss) loss with
      | none => simp [run_audio_simulation, hd, hp] at h
      | some f => simp [run_audio_simulation, hd, hp] at h
    · have hd : dispatch controller_type loss model =
          Except.ok (ml_controller loss model) := by
        simp [dispatch, h3]
      cases hml : ml_controller loss model with
      | none => simp [run_audio_simulation, hd, hml] at h
      | some cfg =>
        cases hp : oracle.pipeline cfg loss with
        | none => simp [run_audio_simulation, hd, hml, hp] at h
        | some f => simp [run_audio_simulation, hd, hml, hp] at h
    · have hd : dispatch controller_type loss model =
          Except.ok (hybrid_controller loss model) := by
        simp [dispatch, h4]
      cases hml : hybrid_controller loss model with
      | none => simp [run_audio_simulation, hd, hml] at h
      | some cfg =>
        cases hp : oracle.pipeline cfg loss with
        | none => simp [run_audio_simulation, hd, hml, hp] at h
        | some f => simp [run_audio_simulation, hd, hml, hp] at h
  · intro hk
    have h1 : ¬ controller_type = "static" := fun h => hk (Or.inl h)
    have h2 : ¬ controller_type = "heuristic" := fun h => hk (Or.inr (Or.inl h))
    have h3 : ¬ controller_type = "ml_adaptive" :=
      fun h => hk (Or.inr (Or.inr (Or.inl h)))
    have h4 : ¬ controller_type = "hybrid" :=
      fun h => hk (Or.inr (Or.inr (Or.inr h)))
    have hd : dispatch controller_type loss model =
        Except.error SimError.unknownController := by
      simp [dispatch, h1, h2, h3, h4]
    simp [run_audio_simulation, hd]
  · intro hk
    have h1 : ¬ controller_type = "static" := fun h => hk (Or.inl h)
    have h2 : ¬ controller_type = "heuristic" := fun h => hk (Or.inr (Or.inl h))
    have h3 : ¬ controller_type = "ml_adaptive" :=
      fun h => hk (Or.inr (Or.inr (Or.inl h)))
    have h4 : ¬ controller_type = "hybrid" :=
      fun h => hk (Or.inr (Or.inr (Or.inr h)))
    have hd : dispatch controller_type loss model =
        Except.error SimError.unknownController := by
      simp [dispatch, h1, h2, h3, h4]
    simp [run_audio_simulation, hd]
  · intro cfg hcfg
    constructor
    · intro hp
      simp [run_audio_simulation, hcfg, hp]
    · intro f hp hs
      simp [run_audio_simulation, hcfg, hp, hs]

/-- Witness for C9: an unrecognized controller keyword yields the
dispatch error with no pipeline invocation, while the static controller
with a failing pipeline yields a plain `None` result. -/
theorem run_audio_simulation_dispatch_errors_witness :
    (run_audio_simulation failOracle 3 ctrl_bogus none).1 =
      Except.error SimError.unknownController ∧
    (run_audio_simulation failOracle 3 ctrl_bogus none).2 = [] ∧
    (run_audio_simulation failOracle 3 ctrl_static none).1 = Except.ok none := by
  refine ⟨?_, ?_, ?_⟩
  · exact (run_audio_simulation_dispatch_errors failOracle 3 ctrl_bogus none).1.mpr
      (by decide)
  · exact (run_audio_simulation_dispatch_errors failOracle 3 ctrl_bogus none).2.1
      (by decide)
  · exact ((run_audio_simulation_dispatch_errors failOracle 3 ctrl_static none).2.2
      (static_controller 3) rfl).1 rfl

/-- Claim C5 (amended): `run_audio_simulation` performs no clamping of
`packet_loss_perc`: whenever the dispatched controller produces a
configuration, the codec pipeline is invoked exactly once with that
configuration and the raw loss argument, unchanged — including values
below 0 or above 100 (see the counterexample); the controllers likewise
receive the raw value. -/
theorem run_audio_simulation_raw_loss (oracle : SimOracle) (loss : ℚ)
    (controller_type : String) (model : Option Predictor) (cfg : Config)
    (h : dispatch controller_type loss model = Except.ok (some cfg)) :
    (run_audio_simulation oracle loss controller_type model).2 = [(cfg, loss)] := by
  cases hp : oracle.pipeline cfg loss with
  | none => simp [run_audio_simulation, h, hp]
  | some f => simp [run_audio_simulation, h, hp]

/-- Witness for C5 (amended): at loss 150 the static controller's
configuration is handed to the pipeline together with the raw value 150. -/
theorem run_audio_simulation_raw_loss_witness :
    (run_audio_simulation failOracle 150 ctrl_static none).2 =
      [({ bitrate := 32, frame_size := 20, complexity := 5, use_fec := false }, 150)] :=
  run_audio_simulation_raw_loss failOracle 150 ctrl_static none
    (static_controller 150) rfl

/-- Counterexample to C5 as stated: called with `packet_loss_perc = 150`,
`run_audio_simulation` invokes the codec pipeline with the loss value 150
itself, which lies outside [0, 100] — no clamping happens before use. -/
theorem run_audio_simulation_unclamped_loss_used :
    (run_audio_simulation failOracle 150 ctrl_static none).2 =
      [({ bitrate := 32, frame_size := 20, complexity := 5, use_fec := false }, 150)] ∧
    ¬ ((0 : ℚ) ≤ 150 ∧ (150 : ℚ) ≤ 100) := by
  constructor
  · rfl
  · intro h
    exact absurd h.2 (by norm_num)
